import Mathlib

/-!
# Verification of the ERPC serial publish/subscribe protocol engine

Shallow embedding of the ERPC library (`ERPC.h` / `ERPC.cpp`): the topic
registry (`subscribe` / `unsubscribe` / `getTopicIdx`), the outbound frame
encoder (`publish` and the `send*` helpers), the byte-driven inbound frame
decoder (`stateHandle` and the `StateHandle*` handlers), and the blocking
acknowledgment coordinator (`waitForAcknowledge`).

Modelling conventions:
* Machine integers are `Nat` with explicit `% 2^w` where the C++ code relies
  on truncation (the `uint8_t` receive counter, the `uint16_t` CRC register).
* The serial port is modelled by explicit byte lists: `State.sentBytes` is the
  trace of raw bytes handed to `serial->write`, and inbound raw bytes are fed
  to `loopBytes` (the `loop()` body), with `unescape` playing the role of
  `serialByteRead`, which strips the escape marker before the state machine.
* Callback function pointers are opaque handles (`Option Nat`, `none` being a
  null pointer); an environment `Env` maps a handle plus the call arguments to
  the `rpcError` value the callback returns.  Callback invocations are
  recorded in the trace field `State.callbackLog`.
* The CRC16 engine is an external collaborator (a separate Arduino library,
  not part of this repository); following its interface contract it is
  modelled as an abstract function `Env.crcCalc` from the list of accumulated
  bytes to a checksum, truncated to 16 bits at `calc()`.  The `CRC16` member
  objects `sendCrc16` / `receiveCrc16` become the lists `State.sendFed` /
  `State.receiveFed` of bytes added since the last `reset()`.
* `malloc(n)` + `memset(0)` becomes `some (List.replicate n 0)`; a store
  through the data pointer becomes `List.set` (an out-of-bounds store, which
  is undefined behaviour in the source, is a no-op in the model).
* Host timing is external; `waitForAcknowledge` takes a schedule of loop
  iterations, each carrying the raw bytes that arrive during that iteration
  and the value of `millis() - startTime` observed at that iteration's
  timeout check.
-/

namespace ERPC

/-- `enum rpcError` value `NO_ERROR`. -/
def NO_ERROR : Nat := 0

/-- `enum rpcError` value `NOT_SUBSCRIBED_ERROR`. -/
def NOT_SUBSCRIBED_ERROR : Nat := 1

/-- `enum rpcError` value `CRC_ERROR`. -/
def CRC_ERROR : Nat := 2

/-- `enum rpcError` value `FRAME_TYPE_ERROR`. -/
def FRAME_TYPE_ERROR : Nat := 3

/-- `enum rpcError` value `ACK_TIMEOUT_ERROR`. -/
def ACK_TIMEOUT_ERROR : Nat := 4

/-- `enum rpcError` value `PROCESSING_ERROR`. -/
def PROCESSING_ERROR : Nat := 5

/-- `#define FRAME_START 0x7E`. -/
def FRAME_START : Nat := 126

/-- `#define ESCAPE_CHARACTER 0x7F`. -/
def ESCAPE_CHARACTER : Nat := 127

/-- The decoder states (`enum SerRpcState`). -/
inductive SerRpcState where
  | IDLE
  | RECEIVING_FRAMEINFO
  | RECEIVING_LENGTH
  | RECEIVING_DATA
  | RECEIVING_CRC
  deriving DecidableEq, Repr

/-- One registry slot (`struct Topic`): topic id, callback function pointer
(an opaque handle, `none` = null), and the occupied flag. -/
structure Topic where
  topicId : Nat
  callback : Option Nat
  used : Bool
  deriving DecidableEq, Repr

/-- External collaborators: the checksum engine and the callback functions
behind the opaque handles.  `callbacks cb topicId data length errorCode` is
the `rpcError` value returned by the callback with handle `cb`. -/
structure Env where
  crcCalc : List Nat → Nat
  callbacks : Nat → Nat → List Nat → Nat → Nat → Nat

/-- The whole mutable state of one `ERPC` object: the registry array, the
decoder working state, the two CRC accumulators (as lists of added bytes),
plus the two observable traces (bytes written to the serial port, callback
invocations). -/
@[ext]
structure State where
  topics : List Topic
  currentTopicIdx : Nat
  currentTopicId : Nat
  receivedData : Option (List Nat)
  receivedDataCounter : Nat
  receivedDataLength : Nat
  receivedFrameInfo : Nat
  receivedCrc : Nat
  receivedFirstCrcByte : Bool
  currentState : SerRpcState
  rxStatus : Nat
  receivedValidAck : Bool
  receivedAckStatus : Nat
  receiveFed : List Nat
  sendFed : List Nat
  sentBytes : List Nat
  callbackLog : List (Nat × List Nat × Nat × Nat)
  deriving DecidableEq, Repr

/-- The state right after the constructor: every slot has `used = false` (the
constructor leaves `topicId` and `callback` indeterminate, so the slot list is
a parameter), the decoder fields have their in-class initializers
(`currentState = IDLE`, `rxStatus = NO_ERROR`, `receivedValidAck = false`,
`receivedAckStatus = NO_ERROR`, `receivedData = nullptr`), the remaining
indeterminate members are 0/false, and both traces are empty. -/
def initState (topics : List Topic) : State where
  topics := topics
  currentTopicIdx := 0
  currentTopicId := 0
  receivedData := none
  receivedDataCounter := 0
  receivedDataLength := 0
  receivedFrameInfo := 0
  receivedCrc := 0
  receivedFirstCrcByte := false
  currentState := SerRpcState.IDLE
  rxStatus := NO_ERROR
  receivedValidAck := false
  receivedAckStatus := NO_ERROR
  receiveFed := []
  sendFed := []
  sentBytes := []
  callbackLog := []

/-- The scan loop of `ERPC::getTopicIdx`: first index whose slot's `topicId`
field equals the argument (the `used` flag is not consulted), else `0xFF`. -/
def getTopicIdxAux (topicId : Nat) : List Topic → Nat → Nat
  | [], _ => 255
  | tp :: rest, idx =>
    if tp.topicId = topicId then idx else getTopicIdxAux topicId rest (idx + 1)

/-- `ERPC::getTopicIdx`. -/
def getTopicIdx (topics : List Topic) (topicId : Nat) : Nat :=
  getTopicIdxAux topicId topics 0

/-- The slot-claiming loop inside `ERPC::subscribe`: occupy the first slot
with `used == false`, or fail when none is free. -/
def subscribeFree (topicId : Nat) (cb : Option Nat) : List Topic → Option (List Topic)
  | [] => none
  | tp :: rest =>
    if tp.used = false then
      some ({ topicId := topicId, callback := cb, used := true } :: rest)
    else
      (subscribeFree topicId cb rest).map (fun ts => tp :: ts)

/-- `ERPC::subscribe`. -/
def subscribe (s : State) (topicId : Nat) (cb : Option Nat) : Bool × State :=
  if topicId > 62 then (false, s)
  else if getTopicIdx s.topics topicId = 255 then
    match subscribeFree topicId cb s.topics with
    | some ts => (true, { s with topics := ts })
    | none => (false, s)
  else (false, s)

/-- `topics_[idx].used = false` on the slot list. -/
def setUsedFalse : List Topic → Nat → List Topic
  | [], _ => []
  | tp :: rest, 0 => { tp with used := false } :: rest
  | tp :: rest, idx + 1 => tp :: setUsedFalse rest idx

/-- `ERPC::unsubscribe`. -/
def unsubscribe (s : State) (topicId : Nat) : Bool × State :=
  let idx := getTopicIdx s.topics topicId
  if idx = 255 then (false, s)
  else (true, { s with topics := setUsedFalse s.topics idx })

/-- The `FrameInfo` union, write direction: low 6 bits topic id, bit 6
`isAck`, bit 7 `ackReq`. -/
def mkFrameInfo (topicId : Nat) (isAck ackReq : Bool) : Nat :=
  topicId % 64 + (if isAck then 64 else 0) + (if ackReq then 128 else 0)

/-- `FrameInfo.bits.topicId` of an info byte. -/
def infoTopicId (b : Nat) : Nat := b % 64

/-- `FrameInfo.bits.isAck` of an info byte. -/
def infoIsAck (b : Nat) : Bool := b / 64 % 2 == 1

/-- `FrameInfo.bits.ackReq` of an info byte. -/
def infoAckReq (b : Nat) : Bool := b / 128 % 2 == 1

/-- `ERPC::serialByteWrite`: optionally emit the escape marker, emit the
byte, optionally add it to the outbound CRC accumulator. -/
def serialByteWrite (s : State) (byte : Nat) (escape crc : Bool) : State :=
  let s1 :=
    if escape && (byte == FRAME_START || byte == ESCAPE_CHARACTER) then
      { s with sentBytes := s.sentBytes ++ [ESCAPE_CHARACTER] }
    else s
  let s2 := { s1 with sentBytes := s1.sentBytes ++ [byte] }
  if crc then { s2 with sendFed := s2.sendFed ++ [byte] } else s2

/-- `ERPC::sendFrameStart`: reset the outbound CRC, write the start marker
raw. -/
def sendFrameStart (s : State) : State :=
  serialByteWrite { s with sendFed := [] } FRAME_START false false

/-- `ERPC::sendFrameInfo`. -/
def sendFrameInfo (s : State) (requireAcknowledge : Bool) (topicId : Nat) : State :=
  serialByteWrite s (mkFrameInfo topicId false requireAcknowledge) true true

/-- `ERPC::sendFrameInfoAck`: topic field 63, `isAck` set. -/
def sendFrameInfoAck (s : State) : State :=
  serialByteWrite s (mkFrameInfo 63 true false) true true

/-- `ERPC::sendFrameLength`. -/
def sendFrameLength (s : State) (length : Nat) : State :=
  serialByteWrite s length true true

/-- `ERPC::sendData`: each payload byte escaped and CRC-fed, in order. -/
def sendData (s : State) (data : List Nat) : State :=
  data.foldl (fun st b => serialByteWrite st b true true) s

/-- `ERPC::sendCrc`: finalize the outbound CRC (16-bit), write high byte then
low byte, escaped, not CRC-fed. -/
def sendCrc (env : Env) (s : State) : State :=
  let crcValue := env.crcCalc s.sendFed % 65536
  let s1 := serialByteWrite s (crcValue >>> 8) true false
  serialByteWrite s1 (crcValue &&& 255) true false

/-- `ERPC::sendAcknowledgeFrame`: an ack frame whose single payload byte is
the current `rxStatus` (truncated to a byte at the `uint8_t` parameter). -/
def sendAcknowledgeFrame (env : Env) (s : State) : State :=
  let s1 := sendFrameStart s
  let s2 := sendFrameInfoAck s1
  let s3 := sendFrameLength s2 1
  let s4 := serialByteWrite s3 (s3.rxStatus % 256) true true
  sendCrc env s4

/-- `ERPC::StateHandleIdle`. -/
def StateHandleIdle (s : State) (byte : Nat) : State :=
  if byte = FRAME_START then
    { s with currentState := SerRpcState.RECEIVING_FRAMEINFO,
             rxStatus := NO_ERROR,
             receiveFed := [],
             receivedData := none }
  else s

/-- `ERPC::StateHandleReceivingFrameInfo`. -/
def StateHandleReceivingFrameInfo (s : State) (byte : Nat) : State :=
  let s1 := { s with receiveFed := s.receiveFed ++ [byte], receivedFrameInfo := byte }
  if infoIsAck byte then
    { s1 with currentState := SerRpcState.RECEIVING_LENGTH }
  else
    let tid := infoTopicId byte
    let idx := getTopicIdx s1.topics tid
    let s2 := { s1 with currentTopicId := tid, currentTopicIdx := idx }
    if idx = 255 then
      { s2 with rxStatus := NOT_SUBSCRIBED_ERROR, currentState := SerRpcState.IDLE }
    else
      { s2 with currentState := SerRpcState.RECEIVING_LENGTH }

/-- `ERPC::StateHandleReceivingLength`: record the declared length, allocate
and zero an exactly-sized buffer, reset the fill counter, go to the data
state (unconditionally, also for length 0). -/
def StateHandleReceivingLength (s : State) (byte : Nat) : State :=
  { s with receiveFed := s.receiveFed ++ [byte],
           receivedDataLength := byte,
           receivedDataCounter := 0,
           receivedData := some (List.replicate byte 0),
           currentState := SerRpcState.RECEIVING_DATA }

/-- `ERPC::StateHandleReceivingData`: store the byte at the fill counter
(`uint8_t`, hence `% 256`), move to the CRC state when the counter reaches
the declared length. -/
def StateHandleReceivingData (s : State) (byte : Nat) : State :=
  match s.receivedData with
  | none => { s with currentState := SerRpcState.IDLE }
  | some buf =>
    let s1 := { s with receiveFed := s.receiveFed ++ [byte],
                       receivedData := some (buf.set s.receivedDataCounter byte),
                       receivedDataCounter := (s.receivedDataCounter + 1) % 256 }
    if s1.receivedDataCounter = s1.receivedDataLength then
      { s1 with currentState := SerRpcState.RECEIVING_CRC, receivedFirstCrcByte := false }
    else s1

/-- `ERPC::topicCallback`: invoke the callback of the slot at
`currentTopicIdx` when that callback pointer and the data buffer are both
non-null; its return value becomes the new `rxStatus`.  The invocation (with
its arguments) is appended to the observable callback trace. -/
def topicCallback (env : Env) (s : State) : State :=
  match s.topics[s.currentTopicIdx]? with
  | none => s
  | some tp =>
    match tp.callback, s.receivedData with
    | some cb, some buf =>
      { s with rxStatus := env.callbacks cb s.currentTopicId buf s.receivedDataLength s.rxStatus,
               callbackLog := s.callbackLog ++
                 [(s.currentTopicId, buf, s.receivedDataLength, s.rxStatus)] }
    | _, _ => s

/-- `ERPC::StateHandleReceivingCrc`: assemble the 16-bit received checksum
from two bytes, compare with the computed checksum, and dispatch
(ack bookkeeping, callback, optional acknowledgment frame). -/
def StateHandleReceivingCrc (env : Env) (s : State) (byte : Nat) : State :=
  if s.receivedFirstCrcByte = false then
    { s with receivedCrc := (byte <<< 8) % 65536, receivedFirstCrcByte := true }
  else
    let s1 := { s with receivedCrc := (s.receivedCrc ||| byte) % 65536 }
    if s1.receivedCrc = env.crcCalc s1.receiveFed % 65536 then
      let s2 := { s1 with rxStatus := NO_ERROR }
      if infoIsAck s2.receivedFrameInfo then
        { s2 with receivedValidAck := true,
                  receivedAckStatus := (s2.receivedData.getD []).headD 0,
                  currentState := SerRpcState.IDLE }
      else
        let s3 := topicCallback env s2
        let s4 := if infoAckReq s3.receivedFrameInfo then sendAcknowledgeFrame env s3 else s3
        { s4 with currentState := SerRpcState.IDLE }
    else
      if infoIsAck s1.receivedFrameInfo = false then
        let s2 := { s1 with rxStatus := CRC_ERROR }
        let s3 := topicCallback env s2
        { s3 with currentState := SerRpcState.IDLE }
      else
        { s1 with currentState := SerRpcState.IDLE }

/-- `ERPC::stateHandle`: dispatch one (unescaped) byte to the handler of the
current decoder state. -/
def stateHandle (env : Env) (s : State) (byte : Nat) : State :=
  match s.currentState with
  | SerRpcState.IDLE => StateHandleIdle s byte
  | SerRpcState.RECEIVING_FRAMEINFO => StateHandleReceivingFrameInfo s byte
  | SerRpcState.RECEIVING_LENGTH => StateHandleReceivingLength s byte
  | SerRpcState.RECEIVING_DATA => StateHandleReceivingData s byte
  | SerRpcState.RECEIVING_CRC => StateHandleReceivingCrc env s byte

/-- The unescaping layer of `ERPC::serialByteRead`: an escape marker makes
the following raw byte literal (a trailing lone escape marker would block
waiting for the next byte; it contributes nothing here). -/
def unescape : List Nat → List Nat
  | [] => []
  | [b] => if b = ESCAPE_CHARACTER then [] else [b]
  | b :: b2 :: rest =>
    if b = ESCAPE_CHARACTER then b2 :: unescape rest
    else b :: unescape (b2 :: rest)

/-- The body of `ERPC::loop()`: read the available raw bytes one logical
(unescaped) byte at a time and run the state machine on each. -/
def loopBytes (env : Env) (s : State) (bytes : List Nat) : State :=
  (unescape bytes).foldl (stateHandle env) s

/-- The entry sequence of `ERPC::waitForAcknowledge`: clear the valid-ack
flag and the stored ack status, force the decoder to `IDLE`. -/
def ackReset (s : State) : State :=
  { s with receivedValidAck := false,
           receivedAckStatus := NO_ERROR,
           currentState := SerRpcState.IDLE }

/-- The wait loop of `ERPC::waitForAcknowledge`.  Each schedule entry is one
iteration: the raw bytes that `loop()` drains during it, and the elapsed
time `millis() - startTime` observed at the timeout check that follows the
pump.  The loop first re-checks the valid-ack flag, then pumps, then checks
the timeout (in that order, as in the source); `none` means the schedule
ended with the loop still spinning. -/
def waitLoop (env : Env) (timeoutMs : Nat) : State → List (List Nat × Nat) → Option (Nat × State)
  | _, [] => none
  | s, (bytes, elapsed) :: rest =>
    if s.receivedValidAck then some (s.receivedAckStatus, s)
    else
      let s1 := loopBytes env s bytes
      if timeoutMs ≤ elapsed then some (ACK_TIMEOUT_ERROR, s1)
      else waitLoop env timeoutMs s1 rest

/-- `ERPC::waitForAcknowledge`. -/
def waitForAcknowledge (env : Env) (s : State) (timeoutMs : Nat)
    (iters : List (List Nat × Nat)) : Option (Nat × State) :=
  waitLoop env timeoutMs (ackReset s) iters

/-- The sending half of `ERPC::publish` (start, info, length, data, CRC);
the `length` argument of the source is `data.length`. -/
def publishSend (env : Env) (s : State) (topicId : Nat) (data : List Nat)
    (requireAcknowledge : Bool) : State :=
  let s1 := sendFrameStart s
  let s2 := sendFrameInfo s1 requireAcknowledge topicId
  let s3 := sendFrameLength s2 data.length
  let s4 := sendData s3 data
  sendCrc env s4

/-- `ERPC::publish`: send the frame, then either return `NO_ERROR` at once or
block in `waitForAcknowledge` (with its iteration schedule). -/
def publish (env : Env) (s : State) (topicId : Nat) (data : List Nat)
    (requireAcknowledge : Bool) (timeoutMs : Nat)
    (iters : List (List Nat × Nat)) : Option (Nat × State) :=
  let s1 := publishSend env s topicId data requireAcknowledge
  if requireAcknowledge then waitForAcknowledge env s1 timeoutMs iters
  else some (NO_ERROR, s1)

/-- The raw wire bytes of one data frame as `publish` emits them (the
`sentBytes` trace of the sending half run on a fresh object). -/
def dataFrameWire (env : Env) (topicId : Nat) (data : List Nat)
    (requireAcknowledge : Bool) : List Nat :=
  (publishSend env (initState []) topicId data requireAcknowledge).sentBytes

/-- The raw wire bytes of one acknowledgment frame carrying `status` (the
`sentBytes` trace of `sendAcknowledgeFrame` run on a fresh object whose
`rxStatus` is `status`). -/
def ackWire (env : Env) (status : Nat) : List Nat :=
  (sendAcknowledgeFrame env { initState [] with rxStatus := status }).sentBytes

/-- Modelled from the spec: a stand-in instance of the external checksum
contract (`reset` / `add` / `calc`) used only to evaluate the model at
concrete inputs; the real library plugs in CRC16-CCITT, which lives outside
this repository.  Callback handles evaluate to their own value. -/
def env0 : Env where
  crcCalc := fun l => l.foldl (fun a b => a + b) 0
  callbacks := fun cb _ _ _ _ => cb

/-! ## Arithmetic facts about the 16-bit checksum reassembly -/

/-- Recombining a high byte shifted left with a disjoint low part is
addition. -/
theorem lor_mul_pow (a b : Nat) (hb : b < 256) : (a * 256) ||| b = a * 256 + b := by
  apply Nat.eq_of_testBit_eq
  intro j
  have hb8 : b < 2 ^ 8 := by omega
  have h1 : a * 256 + b = 2 ^ 8 * a + b := by ring
  have h0 : a * 256 = 2 ^ 8 * a + 0 := by ring
  rw [Nat.testBit_lor, h1, h0,
    Nat.testBit_mul_pow_two_add a (show (0:Nat) < 2 ^ 8 by norm_num) j,
    Nat.testBit_mul_pow_two_add a hb8 j]
  by_cases hj : j < 8
  · simp [hj, Nat.zero_testBit]
  · have hbj : b.testBit j = false := by
      apply Nat.testBit_lt_two_pow
      calc b < 2 ^ 8 := hb8
        _ ≤ 2 ^ j := Nat.pow_le_pow_right (by norm_num) (by omega)
    simp [hj, hbj, Nat.zero_testBit]

/-- Reassembling the two CRC bytes the encoder emitted yields the original
16-bit checksum value. -/
theorem crc_recombine (V : Nat) (hV : V < 65536) :
    ((((V >>> 8) <<< 8) % 65536) ||| (V &&& 255)) % 65536 = V := by
  have hand : V &&& 255 = V % 256 := by
    have h := Nat.and_pow_two_sub_one_eq_mod V 8
    simpa using h
  have hsh : (V >>> 8) <<< 8 = V / 256 * 256 := by
    rw [Nat.shiftRight_eq_div_pow, Nat.shiftLeft_eq]
  have hle : V / 256 * 256 ≤ V := Nat.div_mul_le_self V 256
  have hmod : (V / 256 * 256) % 65536 = V / 256 * 256 := Nat.mod_eq_of_lt (by omega)
  rw [hand, hsh, hmod, lor_mul_pow (V / 256) (V % 256) (Nat.mod_lt V (by norm_num))]
  have := Nat.div_add_mod V 256
  omega

/-! ## The escaping layer -/

/-- The bytes `serialByteWrite` emits for one escaped byte. -/
def escByte (b : Nat) : List Nat :=
  if b == FRAME_START || b == ESCAPE_CHARACTER then [ESCAPE_CHARACTER, b] else [b]

/-- The bytes `sendData` emits for an escaped byte sequence. -/
def escList : List Nat → List Nat
  | [] => []
  | b :: rest => escByte b ++ escList rest

theorem unescape_nil : unescape [] = [] := rfl

theorem unescape_cons_plain (b : Nat) (rest : List Nat) (hb : b ≠ ESCAPE_CHARACTER) :
    unescape (b :: rest) = b :: unescape rest := by
  cases rest with
  | nil => simp [unescape, hb]
  | cons b2 rest2 => simp [unescape, hb]

theorem unescape_escByte (b : Nat) (rest : List Nat) :
    unescape (escByte b ++ rest) = b :: unescape rest := by
  by_cases h : (b == FRAME_START || b == ESCAPE_CHARACTER) = true
  · simp only [escByte, h, if_true, List.cons_append, List.nil_append]
    cases rest with
    | nil => simp [unescape, ESCAPE_CHARACTER]
    | cons b2 rest2 => simp [unescape, ESCAPE_CHARACTER]
  · have hb : b ≠ ESCAPE_CHARACTER := by
      simp only [Bool.or_eq_true, beq_iff_eq] at h
      intro hc
      exact h (Or.inr hc)
    simp only [escByte, h, if_false, List.cons_append, List.nil_append]
    exact unescape_cons_plain b rest hb

theorem unescape_escList (xs : List Nat) (rest : List Nat) :
    unescape (escList xs ++ rest) = xs ++ unescape rest := by
  induction xs generalizing rest with
  | nil => simp [escList]
  | cons b bs ih =>
    simp only [escList, List.append_assoc]
    rw [unescape_escByte, ih]
    rfl

theorem unescape_no_marker (xs : List Nat) (h : ∀ b ∈ xs, b ≠ ESCAPE_CHARACTER) :
    unescape xs = xs := by
  induction xs with
  | nil => rfl
  | cons b bs ih =>
    rw [unescape_cons_plain b bs (h b (List.mem_cons_self b bs)), ih]
    intro x hx
    exact h x (List.mem_cons_of_mem b hx)

/-! ## Characterizing the write path -/

theorem serialByteWrite_tt (s : State) (b : Nat) :
    serialByteWrite s b true true =
      { s with sentBytes := s.sentBytes ++ escByte b, sendFed := s.sendFed ++ [b] } := by
  by_cases h : (b == FRAME_START || b == ESCAPE_CHARACTER) = true <;>
    simp [serialByteWrite, escByte, h]

theorem serialByteWrite_tf (s : State) (b : Nat) :
    serialByteWrite s b true false =
      { s with sentBytes := s.sentBytes ++ escByte b } := by
  by_cases h : (b == FRAME_START || b == ESCAPE_CHARACTER) = true <;>
    simp [serialByteWrite, escByte, h]

theorem serialByteWrite_ff (s : State) (b : Nat) :
    serialByteWrite s b false false = { s with sentBytes := s.sentBytes ++ [b] } := by
  simp [serialByteWrite]

theorem sendData_eq (s : State) (data : List Nat) :
    sendData s data =
      { s with sentBytes := s.sentBytes ++ escList data, sendFed := s.sendFed ++ data } := by
  induction data generalizing s with
  | nil => simp [sendData, escList]
  | cons b bs ih =>
    have h1 : sendData s (b :: bs) = sendData (serialByteWrite s b true true) bs := rfl
    rw [h1, ih, serialByteWrite_tt]
    simp [escList]

theorem publishSend_eq (env : Env) (s : State) (t : Nat) (data : List Nat) (req : Bool) :
    publishSend env s t data req =
      { s with
        sentBytes := s.sentBytes ++ [FRAME_START]
          ++ escByte (mkFrameInfo t false req) ++ escByte data.length ++ escList data
          ++ escByte ((env.crcCalc (mkFrameInfo t false req :: data.length :: data) % 65536) >>> 8)
          ++ escByte ((env.crcCalc (mkFrameInfo t false req :: data.length :: data) % 65536) &&& 255),
        sendFed := mkFrameInfo t false req :: data.length :: data } := by
  simp [publishSend, sendFrameStart, sendFrameInfo, sendFrameLength, sendCrc,
    serialByteWrite_ff, serialByteWrite_tt, serialByteWrite_tf, sendData_eq]

theorem dataFrameWire_eq (env : Env) (t : Nat) (data : List Nat) (req : Bool) :
    dataFrameWire env t data req =
      [FRAME_START]
        ++ escByte (mkFrameInfo t false req) ++ escByte data.length ++ escList data
        ++ escByte ((env.crcCalc (mkFrameInfo t false req :: data.length :: data) % 65536) >>> 8)
        ++ escByte ((env.crcCalc (mkFrameInfo t false req :: data.length :: data) % 65536) &&& 255) := by
  rw [dataFrameWire, publishSend_eq]
  simp [initState]

theorem sendAcknowledgeFrame_eq (env : Env) (s : State) :
    sendAcknowledgeFrame env s =
      { s with
        sentBytes := s.sentBytes ++ ackWire env s.rxStatus,
        sendFed := [mkFrameInfo 63 true false, 1, s.rxStatus % 256] } := by
  simp [ackWire, sendAcknowledgeFrame, sendFrameStart, sendFrameInfoAck, sendFrameLength,
    sendCrc, serialByteWrite_ff, serialByteWrite_tt, serialByteWrite_tf, initState]

/-! ## Single-byte decoder steps -/

theorem step_start (env : Env) (s : State) (hs : s.currentState = SerRpcState.IDLE) :
    stateHandle env s FRAME_START =
      { s with currentState := SerRpcState.RECEIVING_FRAMEINFO,
               rxStatus := NO_ERROR, receiveFed := [], receivedData := none } := by
  simp [stateHandle, hs, StateHandleIdle]

theorem step_idle_other (env : Env) (s : State) (b : Nat)
    (hs : s.currentState = SerRpcState.IDLE) (hb : b ≠ FRAME_START) :
    stateHandle env s b = s := by
  simp [stateHandle, hs, StateHandleIdle, hb]

theorem step_info_resolved (env : Env) (s : State) (b : Nat)
    (hs : s.currentState = SerRpcState.RECEIVING_FRAMEINFO)
    (hAck : infoIsAck b = false)
    (hidx : getTopicIdx s.topics (infoTopicId b) ≠ 255) :
    stateHandle env s b =
      { s with receiveFed := s.receiveFed ++ [b], receivedFrameInfo := b,
               currentTopicId := infoTopicId b,
               currentTopicIdx := getTopicIdx s.topics (infoTopicId b),
               currentState := SerRpcState.RECEIVING_LENGTH } := by
  simp [stateHandle, hs, StateHandleReceivingFrameInfo, hAck, hidx]

theorem step_info_ack (env : Env) (s : State) (b : Nat)
    (hs : s.currentState = SerRpcState.RECEIVING_FRAMEINFO)
    (hAck : infoIsAck b = true) :
    stateHandle env s b =
      { s with receiveFed := s.receiveFed ++ [b], receivedFrameInfo := b,
               currentState := SerRpcState.RECEIVING_LENGTH } := by
  simp [stateHandle, hs, StateHandleReceivingFrameInfo, hAck]

theorem step_length (env : Env) (s : State) (b : Nat)
    (hs : s.currentState = SerRpcState.RECEIVING_LENGTH) :
    stateHandle env s b =
      { s with receiveFed := s.receiveFed ++ [b],
               receivedDataLength := b,
               receivedDataCounter := 0,
               receivedData := some (List.replicate b 0),
               currentState := SerRpcState.RECEIVING_DATA } := by
  simp [stateHandle, hs, StateHandleReceivingLength]

theorem step_data_mid (env : Env) (s : State) (b : Nat) (buf : List Nat)
    (hs : s.currentState = SerRpcState.RECEIVING_DATA)
    (hbuf : s.receivedData = some buf)
    (hne : (s.receivedDataCounter + 1) % 256 ≠ s.receivedDataLength) :
    stateHandle env s b =
      { s with receiveFed := s.receiveFed ++ [b],
               receivedData := some (buf.set s.receivedDataCounter b),
               receivedDataCounter := (s.receivedDataCounter + 1) % 256 } := by
  simp [stateHandle, hs, StateHandleReceivingData, hbuf, hne]

theorem step_data_last (env : Env) (s : State) (b : Nat) (buf : List Nat)
    (hs : s.currentState = SerRpcState.RECEIVING_DATA)
    (hbuf : s.receivedData = some buf)
    (heq : (s.receivedDataCounter + 1) % 256 = s.receivedDataLength) :
    stateHandle env s b =
      { s with receiveFed := s.receiveFed ++ [b],
               receivedData := some (buf.set s.receivedDataCounter b),
               receivedDataCounter := (s.receivedDataCounter + 1) % 256,
               currentState := SerRpcState.RECEIVING_CRC,
               receivedFirstCrcByte := false } := by
  simp [stateHandle, hs, StateHandleReceivingData, hbuf, heq]

theorem step_crc_first (env : Env) (s : State) (b : Nat)
    (hs : s.currentState = SerRpcState.RECEIVING_CRC)
    (hf : s.receivedFirstCrcByte = false) :
    stateHandle env s b =
      { s with receivedCrc := (b <<< 8) % 65536, receivedFirstCrcByte := true } := by
  simp [stateHandle, hs, StateHandleReceivingCrc, hf]

theorem step_crc_valid_ack (env : Env) (s : State) (b : Nat)
    (hs : s.currentState = SerRpcState.RECEIVING_CRC)
    (hf : s.receivedFirstCrcByte = true)
    (hmatch : (s.receivedCrc ||| b) % 65536 = env.crcCalc s.receiveFed % 65536)
    (hAck : infoIsAck s.receivedFrameInfo = true) :
    stateHandle env s b =
      { s with receivedCrc := (s.receivedCrc ||| b) % 65536,
               rxStatus := NO_ERROR,
               receivedValidAck := true,
               receivedAckStatus := (s.receivedData.getD []).headD 0,
               currentState := SerRpcState.IDLE } := by
  simp [stateHandle, hs, StateHandleReceivingCrc, hf, hmatch, hAck]

theorem step_crc_valid_data_noack (env : Env) (s : State) (b : Nat) (tp : Topic)
    (cb : Nat) (buf : List Nat)
    (hs : s.currentState = SerRpcState.RECEIVING_CRC)
    (hf : s.receivedFirstCrcByte = true)
    (hmatch : (s.receivedCrc ||| b) % 65536 = env.crcCalc s.receiveFed % 65536)
    (hAck : infoIsAck s.receivedFrameInfo = false)
    (hReq : infoAckReq s.receivedFrameInfo = false)
    (htp : s.topics[s.currentTopicIdx]? = some tp)
    (hcb : tp.callback = some cb)
    (hbuf : s.receivedData = some buf) :
    stateHandle env s b =
      { s with receivedCrc := (s.receivedCrc ||| b) % 65536,
               rxStatus := env.callbacks cb s.currentTopicId buf s.receivedDataLength NO_ERROR,
               callbackLog := s.callbackLog ++
                 [(s.currentTopicId, buf, s.receivedDataLength, NO_ERROR)],
               currentState := SerRpcState.IDLE } := by
  simp [stateHandle, hs, StateHandleReceivingCrc, hf, hmatch, hAck, hReq,
    topicCallback, htp, hcb, hbuf]

theorem step_crc_valid_data_ack (env : Env) (s : State) (b : Nat) (tp : Topic)
    (cb : Nat) (buf : List Nat)
    (hs : s.currentState = SerRpcState.RECEIVING_CRC)
    (hf : s.receivedFirstCrcByte = true)
    (hmatch : (s.receivedCrc ||| b) % 65536 = env.crcCalc s.receiveFed % 65536)
    (hAck : infoIsAck s.receivedFrameInfo = false)
    (hReq : infoAckReq s.receivedFrameInfo = true)
    (htp : s.topics[s.currentTopicIdx]? = some tp)
    (hcb : tp.callback = some cb)
    (hbuf : s.receivedData = some buf) :
    stateHandle env s b =
      { s with receivedCrc := (s.receivedCrc ||| b) % 65536,
               rxStatus := env.callbacks cb s.currentTopicId buf s.receivedDataLength NO_ERROR,
               callbackLog := s.callbackLog ++
                 [(s.currentTopicId, buf, s.receivedDataLength, NO_ERROR)],
               sentBytes := s.sentBytes ++
                 ackWire env (env.callbacks cb s.currentTopicId buf s.receivedDataLength NO_ERROR),
               sendFed := [mkFrameInfo 63 true false, 1,
                 env.callbacks cb s.currentTopicId buf s.receivedDataLength NO_ERROR % 256],
               currentState := SerRpcState.IDLE } := by
  simp [stateHandle, hs, StateHandleReceivingCrc, hf, hmatch, hAck, hReq,
    topicCallback, htp, hcb, hbuf, sendAcknowledgeFrame_eq]

theorem step_crc_invalid_data (env : Env) (s : State) (b : Nat) (tp : Topic)
    (cb : Nat) (buf : List Nat)
    (hs : s.currentState = SerRpcState.RECEIVING_CRC)
    (hf : s.receivedFirstCrcByte = true)
    (hmismatch : (s.receivedCrc ||| b) % 65536 ≠ env.crcCalc s.receiveFed % 65536)
    (hAck : infoIsAck s.receivedFrameInfo = false)
    (htp : s.topics[s.currentTopicIdx]? = some tp)
    (hcb : tp.callback = some cb)
    (hbuf : s.receivedData = some buf) :
    stateHandle env s b =
      { s with receivedCrc := (s.receivedCrc ||| b) % 65536,
               rxStatus := env.callbacks cb s.currentTopicId buf s.receivedDataLength CRC_ERROR,
               callbackLog := s.callbackLog ++
                 [(s.currentTopicId, buf, s.receivedDataLength, CRC_ERROR)],
               currentState := SerRpcState.IDLE } := by
  simp [stateHandle, hs, StateHandleReceivingCrc, hf, hmismatch, hAck,
    topicCallback, htp, hcb, hbuf]

theorem ackWire_eq (env : Env) (status : Nat) :
    ackWire env status =
      [FRAME_START] ++ escByte (mkFrameInfo 63 true false) ++ escByte 1
        ++ escByte (status % 256)
        ++ escByte ((env.crcCalc [mkFrameInfo 63 true false, 1, status % 256] % 65536) >>> 8)
        ++ escByte ((env.crcCalc [mkFrameInfo 63 true false, 1, status % 256] % 65536) &&& 255) := by
  simp [ackWire, sendAcknowledgeFrame, sendFrameStart, sendFrameInfoAck, sendFrameLength,
    sendCrc, serialByteWrite_ff, serialByteWrite_tt, serialByteWrite_tf, initState]

/-! ## The data phase of the decoder -/

/-- Writing a byte sequence into a buffer starting at index `k`, one
`List.set` per received byte, as the data state does. -/
def listWrite : List Nat → Nat → List Nat → List Nat
  | buf, _, [] => buf
  | buf, k, b :: rest => listWrite (buf.set k b) (k + 1) rest

theorem take_succ_set (buf : List Nat) (k : Nat) (d : Nat) (h : k < buf.length) :
    (buf.set k d).take (k + 1) = buf.take k ++ [d] := by
  induction buf generalizing k with
  | nil => simp at h
  | cons b bs ih =>
    cases k with
    | zero => simp
    | succ k2 =>
      have h2 : k2 < bs.length := by simpa using h
      simp [List.take_succ_cons, ih k2 h2]

theorem listWrite_fill (data : List Nat) :
    ∀ (buf : List Nat) (k : Nat), buf.length = k + data.length →
      listWrite buf k data = buf.take k ++ data := by
  induction data with
  | nil =>
    intro buf k h
    simp only [List.length_nil, Nat.add_zero] at h
    simp [listWrite, ← h, List.take_length]
  | cons d ds ih =>
    intro buf k h
    simp only [listWrite]
    rw [ih (buf.set k d) (k + 1) (by simp at h ⊢; omega)]
    rw [take_succ_set buf k d (by simp at h; omega)]
    simp

theorem listWrite_replicate (data : List Nat) :
    listWrite (List.replicate data.length 0) 0 data = data := by
  rw [listWrite_fill data _ 0 (by simp)]
  simp

/-- Feeding the remaining payload bytes while in the data state: the buffer
is filled from the current counter, the counter reaches the declared length,
and the decoder moves to the CRC state after the last byte. -/
theorem dataPhase (env : Env) :
    ∀ (rest : List Nat) (tps : List Topic) (cti ctid : Nat) (buf : List Nat)
      (rdc rdl rfi rcrc : Nat) (rfc : Bool) (rxs : Nat) (rva : Bool) (ras : Nat)
      (rfed sfed sout : List Nat) (clog : List (Nat × List Nat × Nat × Nat)),
      rdc + rest.length = rdl →
      rdl ≤ 255 →
      rest ≠ [] →
      List.foldl (stateHandle env)
        (State.mk tps cti ctid (some buf) rdc rdl rfi rcrc rfc
          SerRpcState.RECEIVING_DATA rxs rva ras rfed sfed sout clog) rest =
      State.mk tps cti ctid (some (listWrite buf rdc rest)) rdl rdl rfi rcrc false
        SerRpcState.RECEIVING_CRC rxs rva ras (rfed ++ rest) sfed sout clog := by
  intro rest
  induction rest with
  | nil =>
    intro tps cti ctid buf rdc rdl rfi rcrc rfc rxs rva ras rfed sfed sout clog _ _ hne
    exact absurd rfl hne
  | cons b bs ih =>
    intro tps cti ctid buf rdc rdl rfi rcrc rfc rxs rva ras rfed sfed sout clog hlen h255 _
    cases bs with
    | nil =>
      have heq : (rdc + 1) % 256 = rdl := by
        simp only [List.length_cons, List.length_nil] at hlen
        rw [Nat.mod_eq_of_lt (by omega)]
        omega
      rw [List.foldl_cons, step_data_last env _ b buf rfl rfl heq, List.foldl_nil]
      simp [listWrite, heq]
    | cons b2 bs2 =>
      have hcnt : rdc + 1 < 256 := by
        simp only [List.length_cons] at hlen
        omega
      have hmod : (rdc + 1) % 256 = rdc + 1 := Nat.mod_eq_of_lt hcnt
      have hne : (rdc + 1) % 256 ≠ rdl := by
        rw [hmod]
        simp only [List.length_cons] at hlen
        omega
      have hlen2 : rdc + 1 + (b2 :: bs2).length = rdl := by
        simp only [List.length_cons] at hlen ⊢
        omega
      rw [List.foldl_cons, step_data_mid env _ b buf rfl rfl hne]
      simp only [hmod]
      rw [ih tps cti ctid (buf.set rdc b) (rdc + 1) rdl rfi rcrc rfc rxs rva ras
        (rfed ++ [b]) sfed sout clog hlen2 h255 (List.cons_ne_nil b2 bs2)]
      simp [listWrite]

/-! ## Decoding one complete frame -/

/-- Decoding one complete, well-formed data frame (no ack requested) from the
idle state: the resolved subscriber's callback is invoked exactly once with
the original topic id, payload and length and status `NO_ERROR`, nothing is
transmitted, and the decoder returns to `IDLE`; the remaining input is then
processed from that state. -/
theorem frameDecode (env : Env) (s : State) (t : Nat) (data : List Nat)
    (tp : Topic) (cb : Nat) (rest : List Nat)
    (hs : s.currentState = SerRpcState.IDLE)
    (ht : t ≤ 62)
    (h1 : 1 ≤ data.length) (h255 : data.length ≤ 255)
    (hi : getTopicIdx s.topics t ≠ 255)
    (htp : s.topics[getTopicIdx s.topics t]? = some tp)
    (hcb : tp.callback = some cb) :
    List.foldl (stateHandle env) s (unescape (dataFrameWire env t data false ++ rest)) =
      List.foldl (stateHandle env)
        { s with currentState := SerRpcState.IDLE,
                 receivedFrameInfo := t,
                 currentTopicId := t,
                 currentTopicIdx := getTopicIdx s.topics t,
                 receivedDataLength := data.length,
                 receivedDataCounter := data.length,
                 receivedData := some data,
                 receivedFirstCrcByte := true,
                 receivedCrc := env.crcCalc (t :: data.length :: data) % 65536,
                 receiveFed := t :: data.length :: data,
                 rxStatus := env.callbacks cb t data data.length NO_ERROR,
                 callbackLog := s.callbackLog ++ [(t, data, data.length, NO_ERROR)] }
        (unescape rest) := by
  have hinfo : mkFrameInfo t false false = t := by
    show t % 64 + 0 + 0 = t
    omega
  have htid : infoTopicId t = t := Nat.mod_eq_of_lt (by omega)
  have hia : infoIsAck t = false := by
    have h64 : t / 64 = 0 := Nat.div_eq_of_lt (by omega)
    simp [infoIsAck, h64]
  have hreq : infoAckReq t = false := by
    have h128 : t / 128 = 0 := Nat.div_eq_of_lt (by omega)
    simp [infoAckReq, h128]
  have hVlt : env.crcCalc (t :: data.length :: data) % 65536 < 65536 :=
    Nat.mod_lt _ (by norm_num)
  have hdne : data ≠ [] := by
    intro hc
    rw [hc] at h1
    simp at h1
  rw [dataFrameWire_eq, hinfo]
  simp only [List.append_assoc, List.cons_append, List.nil_append]
  rw [unescape_cons_plain _ _ (by decide), unescape_escByte, unescape_escByte,
    unescape_escList, unescape_escByte, unescape_escByte]
  obtain ⟨tps, cti, ctid, rd, rdc, rdl, rfi, rcrc, rfc, cst, rxs, rva, ras, rfed, sfed, sout, clog⟩ := s
  have hs2 : cst = SerRpcState.IDLE := hs
  subst hs2
  have hidx2 : getTopicIdx tps (infoTopicId t) ≠ 255 := by rwa [htid]
  have htp3 : tps[getTopicIdx tps (infoTopicId t)]? = some tp := by rwa [htid]
  have hlen0 : (0:Nat) + data.length = data.length := by omega
  rw [List.foldl_cons, step_start env _ rfl]
  rw [List.foldl_cons, step_info_resolved env _ t rfl hia hidx2]
  rw [List.foldl_cons, step_length env _ data.length rfl]
  rw [List.foldl_append]
  rw [dataPhase env data _ _ _ (List.replicate data.length 0) _ _ _ _ _ _ _ _ _ _ _ _
    hlen0 h255 hdne]
  rw [List.foldl_cons, step_crc_first env _ _ rfl rfl]
  rw [List.foldl_cons,
    step_crc_valid_data_noack env _ _ tp cb (listWrite (List.replicate data.length 0) 0 data)
      rfl rfl (crc_recombine _ hVlt) hia hreq htp3 hcb rfl]
  simp only [listWrite_replicate, htid]
  rw [crc_recombine _ hVlt]
  simp

/-- Decoding one complete, well-formed acknowledgment frame from the idle
state: no topic resolution happens, no callback runs, the valid-ack flag is
set and the carried status byte is stored; the remaining input is then
processed from the idle state. -/
theorem ackDecode (env : Env) (s : State) (status : Nat) (rest : List Nat)
    (hs : s.currentState = SerRpcState.IDLE)
    (hst : status < 256) :
    List.foldl (stateHandle env) s (unescape (ackWire env status ++ rest)) =
      List.foldl (stateHandle env)
        { s with currentState := SerRpcState.IDLE,
                 receivedFrameInfo := mkFrameInfo 63 true false,
                 receivedDataLength := 1,
                 receivedDataCounter := 1,
                 receivedData := some [status],
                 receivedFirstCrcByte := true,
                 receivedCrc := env.crcCalc [mkFrameInfo 63 true false, 1, status] % 65536,
                 receiveFed := [mkFrameInfo 63 true false, 1, status],
                 rxStatus := NO_ERROR,
                 receivedValidAck := true,
                 receivedAckStatus := status }
        (unescape rest) := by
  have hinfo : mkFrameInfo 63 true false = 127 := by decide
  have hia : infoIsAck 127 = true := by decide
  have hstm : status % 256 = status := Nat.mod_eq_of_lt hst
  have hVlt : env.crcCalc [127, 1, status] % 65536 < 65536 := Nat.mod_lt _ (by norm_num)
  have hq1 : ((0:Nat) + 1) % 256 = 1 := by decide
  rw [ackWire_eq, hinfo, hstm]
  simp only [List.append_assoc, List.cons_append, List.nil_append]
  rw [unescape_cons_plain _ _ (by decide), unescape_escByte, unescape_escByte,
    unescape_escByte, unescape_escByte, unescape_escByte]
  obtain ⟨tps, cti, ctid, rd, rdc, rdl, rfi, rcrc, rfc, cst, rxs, rva, ras, rfed, sfed, sout, clog⟩ := s
  have hs2 : cst = SerRpcState.IDLE := hs
  subst hs2
  rw [List.foldl_cons, step_start env _ rfl]
  rw [List.foldl_cons, step_info_ack env _ 127 rfl hia]
  rw [List.foldl_cons, step_length env _ 1 rfl]
  rw [List.foldl_cons, step_data_last env _ status [0] rfl rfl hq1]
  rw [List.foldl_cons, step_crc_first env _ _ rfl rfl]
  rw [List.foldl_cons, step_crc_valid_ack env _ _ rfl rfl (crc_recombine _ hVlt) hia]
  simp [hinfo, crc_recombine _ hVlt]

/-! ## Registry and wait-loop support lemmas -/

theorem getTopicIdxAux_not_found (t : Nat) (ts : List Topic)
    (h : ∀ tp ∈ ts, tp.topicId ≠ t) : ∀ i, getTopicIdxAux t ts i = 255 := by
  induction ts with
  | nil => intro i; rfl
  | cons tp rest ih =>
    intro i
    have h1 : tp.topicId ≠ t := h tp (List.mem_cons_self tp rest)
    rw [getTopicIdxAux]
    simp only [h1, if_false]
    exact ih (fun x hx => h x (List.mem_cons_of_mem tp hx)) (i + 1)

theorem subscribeFree_none (t : Nat) (cb : Option Nat) (ts : List Topic)
    (h : ∀ tp ∈ ts, tp.used = true) : subscribeFree t cb ts = none := by
  induction ts with
  | nil => rfl
  | cons tp rest ih =>
    have h1 : tp.used = true := h tp (List.mem_cons_self tp rest)
    rw [subscribeFree]
    simp [h1, ih (fun x hx => h x (List.mem_cons_of_mem tp hx))]

/-- From the idle state, bytes other than the start marker are ignored. -/
theorem idle_ignores (env : Env) (bytes : List Nat) :
    ∀ (s : State), s.currentState = SerRpcState.IDLE →
      (∀ b ∈ bytes, b ≠ FRAME_START) →
      List.foldl (stateHandle env) s bytes = s := by
  induction bytes with
  | nil => intro s _ _; rfl
  | cons b bs ih =>
    intro s hs hb
    rw [List.foldl_cons, step_idle_other env s b hs (hb b (List.mem_cons_self b bs))]
    exact ih s hs (fun x hx => hb x (List.mem_cons_of_mem b hx))

/-- Any result of the acknowledgment wait loop is obtained by pumping the
decoder with exactly the consumed prefix of the iteration schedule, just as
a sequence of plain `loop()` calls would. -/
theorem waitLoop_prefix (env : Env) (tm : Nat) :
    ∀ (iters : List (List Nat × Nat)) (s : State) (r : Nat) (s2 : State),
      waitLoop env tm s iters = some (r, s2) →
      ∃ k, k ≤ iters.length ∧
        s2 = List.foldl (fun st p => loopBytes env st p.1) s (iters.take k) := by
  intro iters
  induction iters with
  | nil =>
    intro s r s2 h
    simp [waitLoop] at h
  | cons it rest ih =>
    intro s r s2 h
    obtain ⟨bytes, elapsed⟩ := it
    rw [waitLoop] at h
    by_cases hv : s.receivedValidAck
    · simp only [hv, if_true] at h
      refine ⟨0, Nat.zero_le _, ?_⟩
      simp only [Option.some.injEq, Prod.mk.injEq] at h
      simp [← h.2]
    · simp only [hv, if_false, Bool.false_eq_true] at h
      by_cases htm : tm ≤ elapsed
      · simp only [htm, if_true] at h
        simp only [Option.some.injEq, Prod.mk.injEq] at h
        refine ⟨1, by simp, ?_⟩
        simp [← h.2]
      · simp only [htm, if_false] at h
        obtain ⟨k, hk, hs2⟩ := ih (loopBytes env s bytes) r s2 h
        refine ⟨k + 1, by simp; omega, ?_⟩
        simpa using hs2

/-! ## Concrete objects used to evaluate the model -/

/-- A fresh two-slot engine; the constructor leaves the slot ids and callback
pointers indeterminate, modelled here by id 63 and a null callback. -/
def fresh2 : State :=
  initState [{ topicId := 63, callback := none, used := false },
    { topicId := 63, callback := none, used := false }]

/-- The engine of `fresh2` after `subscribe(5, cb)` followed by
`unsubscribe(5)`. -/
def afterUnsub5 : State := (unsubscribe (subscribe fresh2 5 (some 7)).2 5).2

/-- An engine with topic 5 subscribed (callback handle 9). -/
def sub5 : State := initState [{ topicId := 5, callback := some 9, used := true }]

/-- A decoder caught at the final CRC byte of a data frame for topic 5 whose
info byte (133 = topic 5 with the ack-request bit) requested an
acknowledgment; the payload buffer holds `[1, 2]`. -/
def crcState : State :=
  State.mk [{ topicId := 5, callback := some 9, used := true }] 0 5 (some [1, 2]) 2 2 133 0
    true SerRpcState.RECEIVING_CRC 0 false 0 [133, 2, 1, 2] [] [] []

/-! ## C1: round-trip from `publish` through the decoder -/

/-- C1 (amended: payload lengths 1-255; a zero-length payload does not round
trip, see the counterexample): for every topic id 0-62 and payload of length
1-255 — marker bytes 0x7E/0x7F included — feeding the exact byte stream that
`publish(topicId, payload, length, false)` emitted into the decoder of an
engine whose registry resolves that topic id to a slot with a non-null
callback invokes that callback exactly once, with the same topic id, the
same length, the original payload bytes and status `NO_ERROR`, and returns
the decoder to `IDLE`. -/
theorem spec_C1_roundtrip_amended (env : Env) (tsTx tsRx : List Topic) (t : Nat)
    (tp : Topic) (cb : Nat) (data : List Nat) (tm : Nat)
    (iters : List (List Nat × Nat)) (sTx : State)
    (ht : t ≤ 62)
    (h1 : 1 ≤ data.length) (h255 : data.length ≤ 255)
    (_hbytes : ∀ b ∈ data, b < 256)
    (hi : getTopicIdx tsRx t ≠ 255)
    (htp : tsRx[getTopicIdx tsRx t]? = some tp)
    (hcb : tp.callback = some cb)
    (hpub : publish env (initState tsTx) t data false tm iters = some (NO_ERROR, sTx)) :
    (loopBytes env (initState tsRx) sTx.sentBytes).callbackLog
        = [(t, data, data.length, NO_ERROR)]
    ∧ (loopBytes env (initState tsRx) sTx.sentBytes).currentState = SerRpcState.IDLE := by
  have h2 : (some (NO_ERROR, publishSend env (initState tsTx) t data false)
      : Option (Nat × State)) = some (NO_ERROR, sTx) := hpub
  simp only [Option.some.injEq, Prod.mk.injEq, true_and] at h2
  subst h2
  have hw : (publishSend env (initState tsTx) t data false).sentBytes
      = dataFrameWire env t data false := by
    rw [publishSend_eq, dataFrameWire_eq]
    simp [initState]
  rw [hw]
  have hfd := frameDecode env (initState tsRx) t data tp cb [] rfl ht h1 h255 hi htp hcb
  rw [List.append_nil] at hfd
  rw [loopBytes, hfd]
  simp [initState, unescape]

/-- C1 counterexample (zero-length payload): the byte stream of
`publish(5, [], 0, false)` leaves the decoder of an engine subscribed to
topic 5 stuck in the data state with no callback invocation at all (the
declared length 0 still moves the decoder to the data state, which then
swallows the two CRC bytes as payload), refuting the claim for length 0. -/
theorem spec_C1_counterexample :
    (loopBytes env0 sub5 (publishSend env0 (initState []) 5 [] false).sentBytes).callbackLog = []
    ∧ (loopBytes env0 sub5 (publishSend env0 (initState []) 5 [] false).sentBytes).currentState
        = SerRpcState.RECEIVING_DATA := by decide

/-- Witness for C1: topic 5, payload `[126, 127, 3]` (start marker, escape
marker, plain byte). -/
theorem spec_C1_roundtrip_amended_witness :
    (1 ≤ ([126, 127, 3] : List Nat).length ∧ ([126, 127, 3] : List Nat).length ≤ 255
      ∧ getTopicIdx sub5.topics 5 ≠ 255)
    ∧ (loopBytes env0 (initState sub5.topics)
        (publishSend env0 (initState []) 5 [126, 127, 3] false).sentBytes).callbackLog
        = [(5, [126, 127, 3], 3, NO_ERROR)] :=
  ⟨⟨by decide, by decide, by decide⟩,
    (spec_C1_roundtrip_amended env0 [] sub5.topics 5
      { topicId := 5, callback := some 9, used := true } 9 [126, 127, 3] 200 []
      (publishSend env0 (initState []) 5 [126, 127, 3] false)
      (by decide) (by decide) (by decide) (by decide) (by decide) (by decide) (by decide)
      rfl).1⟩

/-! ## C2: registry uniqueness and re-subscription -/

/-- C2 (code bug): on a fresh registry, `subscribe(5, cb)` succeeds and
`unsubscribe(5)` succeeds, but the claimed subsequent `subscribe(5, cb)`
returns `false`: `getTopicIdx` matches a slot by its `topicId` field without
consulting the `used` flag, so the stale slot left by `unsubscribe` blocks
re-subscription, contradicting `subscribe`'s own documentation ("false if
the topic is already subscribed or there is no space"). -/
theorem spec_C2_resubscribe_code_bug :
    (subscribe fresh2 5 (some 7)).1 = true
    ∧ (subscribe (subscribe fresh2 5 (some 7)).2 5 (some 7)).1 = false
    ∧ (unsubscribe (subscribe fresh2 5 (some 7)).2 5).1 = true
    ∧ (subscribe afterUnsub5 5 (some 7)).1 = false := by decide

/-! ## C3: zero-length frames -/

/-- C3 counterexample: with the decoder at the length byte (after start
marker and a resolvable info byte for topic 5), the byte 0 moves it to
`RECEIVING_DATA`, not to the CRC phase; and after the two further (CRC)
bytes of the frame the decoder is still in `RECEIVING_DATA` with no callback
run, so a zero-length frame does not complete after two further bytes. -/
theorem spec_C3_counterexample :
    (stateHandle env0 (loopBytes env0 sub5 [126, 5]) 0).currentState
        = SerRpcState.RECEIVING_DATA
    ∧ (stateHandle env0 (loopBytes env0 sub5 [126, 5]) 0).currentState
        ≠ SerRpcState.RECEIVING_CRC
    ∧ (loopBytes env0 sub5 [126, 5, 0, 0, 5]).currentState = SerRpcState.RECEIVING_DATA
    ∧ (loopBytes env0 sub5 [126, 5, 0, 0, 5]).callbackLog = [] := by decide

/-- C3 (amended): after the decoder processes the length byte it always
transitions to the data state — for a declared length of 0 as well; it
records the declared length, allocates an exactly-sized zeroed buffer and
resets the fill counter, and never moves directly to the CRC phase. -/
theorem spec_C3_zero_length_amended (env : Env) (s : State) (b : Nat)
    (hs : s.currentState = SerRpcState.RECEIVING_LENGTH) :
    (stateHandle env s b).currentState = SerRpcState.RECEIVING_DATA
    ∧ (stateHandle env s b).receivedDataLength = b
    ∧ (stateHandle env s b).receivedDataCounter = 0
    ∧ (stateHandle env s b).receivedData = some (List.replicate b 0) := by
  rw [step_length env s b hs]
  simp

/-- Witness for C3 at declared length 0. -/
theorem spec_C3_zero_length_amended_witness :
    (stateHandle env0 { initState [] with currentState := SerRpcState.RECEIVING_LENGTH }
        0).currentState = SerRpcState.RECEIVING_DATA
    ∧ (stateHandle env0 { initState [] with currentState := SerRpcState.RECEIVING_LENGTH }
        0).receivedData = some (List.replicate 0 0) :=
  ⟨(spec_C3_zero_length_amended env0
      { initState [] with currentState := SerRpcState.RECEIVING_LENGTH } 0 rfl).1,
    (spec_C3_zero_length_amended env0
      { initState [] with currentState := SerRpcState.RECEIVING_LENGTH } 0 rfl).2.2.2⟩

/-! ## C4: unknown-topic drop -/

/-- C4 (code bug): in the registry state where topic 5 was subscribed and
then unsubscribed there is no registered subscriber for topic 5, yet an
inbound data frame for topic 5 is not dropped: the info byte resolves to the
stale slot (`getTopicIdx` ignores the `used` flag), the decoder proceeds to
the length state with `rxStatus` unchanged instead of `NOT_SUBSCRIBED_ERROR`
and `IDLE`, and the complete valid frame still invokes the stale callback. -/
theorem spec_C4_unsubscribed_resolution_code_bug :
    (stateHandle env0 (stateHandle env0 afterUnsub5 FRAME_START) 5).currentState
        = SerRpcState.RECEIVING_LENGTH
    ∧ (stateHandle env0 (stateHandle env0 afterUnsub5 FRAME_START) 5).rxStatus
        ≠ NOT_SUBSCRIBED_ERROR
    ∧ (loopBytes env0 afterUnsub5 [126, 5, 3, 1, 2, 3, 0, 14]).callbackLog
        = [(5, [1, 2, 3], 3, NO_ERROR)] := by decide

/-! ## C6: corrupted data frames -/

/-- C6: when the decoder completes a data frame (final CRC byte) and the
assembled 16-bit checksum does not match the computed one, the resolved
subscriber's callback is still invoked — with status `CRC_ERROR` — no bytes
are transmitted (so no acknowledgment frame is emitted, whatever the
ack-request bit says), and the decoder returns to `IDLE`. -/
theorem spec_C6_crc_mismatch (env : Env) (s : State) (b : Nat) (tp : Topic)
    (cb : Nat) (buf : List Nat)
    (hs : s.currentState = SerRpcState.RECEIVING_CRC)
    (hf : s.receivedFirstCrcByte = true)
    (hAck : infoIsAck s.receivedFrameInfo = false)
    (htp : s.topics[s.currentTopicIdx]? = some tp)
    (hcb : tp.callback = some cb)
    (hbuf : s.receivedData = some buf)
    (hcrc : (s.receivedCrc ||| b) % 65536 ≠ env.crcCalc s.receiveFed % 65536) :
    (stateHandle env s b).callbackLog
        = s.callbackLog ++ [(s.currentTopicId, buf, s.receivedDataLength, CRC_ERROR)]
    ∧ (stateHandle env s b).sentBytes = s.sentBytes
    ∧ (stateHandle env s b).currentState = SerRpcState.IDLE := by
  rw [step_crc_invalid_data env s b tp cb buf hs hf hcrc hAck htp hcb hbuf]
  simp

/-- Witness for C6: `crcState` has the ack-request bit set (info byte 133)
and receives a final CRC byte that does not match; the callback runs with
`CRC_ERROR` and nothing is sent. -/
theorem spec_C6_crc_mismatch_witness :
    (stateHandle env0 crcState 1).callbackLog = [(5, [1, 2], 2, CRC_ERROR)]
    ∧ (stateHandle env0 crcState 1).sentBytes = []
    ∧ (stateHandle env0 crcState 1).currentState = SerRpcState.IDLE :=
  spec_C6_crc_mismatch env0 crcState 1 { topicId := 5, callback := some 9, used := true }
    9 [1, 2] rfl rfl (by decide) (by decide) (by decide) rfl (by decide)

/-! ## C8: capacity bound with frame condition -/

/-- C8: when every registry slot is occupied, `subscribe` for a topic id not
held by any slot returns `false` and leaves the whole engine state — every
slot's topic id, callback and occupied flag included — unchanged. -/
theorem spec_C8_capacity_frame (s : State) (t : Nat) (cb : Option Nat)
    (hfull : ∀ tp ∈ s.topics, tp.used = true)
    (hnew : ∀ tp ∈ s.topics, tp.topicId ≠ t) :
    subscribe s t cb = (false, s) := by
  rw [subscribe]
  by_cases ht : t > 62
  · simp [ht]
  · simp only [ht, if_false]
    rw [getTopicIdx, getTopicIdxAux_not_found t s.topics hnew 0]
    simp [subscribeFree_none t cb s.topics hfull]

/-- Witness for C8: a full two-slot registry and a fresh topic id 5. -/
theorem spec_C8_capacity_frame_witness :
    subscribe (initState [{ topicId := 1, callback := some 1, used := true },
        { topicId := 2, callback := some 2, used := true }]) 5 (some 3)
      = (false, initState [{ topicId := 1, callback := some 1, used := true },
        { topicId := 2, callback := some 2, used := true }]) :=
  spec_C8_capacity_frame
    (initState [{ topicId := 1, callback := some 1, used := true },
      { topicId := 2, callback := some 2, used := true }]) 5 (some 3)
    (by decide) (by decide)

/-! ## C5: acknowledgment status propagation -/

/-- C5: (1) when the decoder completes a valid (checksum-matching) data
frame whose ack-request bit is set, it transmits exactly one acknowledgment
frame, namely `ackWire` of the status code the subscriber's callback
returned, invokes that callback exactly once, and returns to `IDLE`;
(2) a `publish` with acknowledgment requested whose peer delivers the valid
acknowledgment frame carrying `status` before the timeout returns that same
`status`. -/
theorem spec_C5_ack_status :
    (∀ (env : Env) (s : State) (b : Nat) (tp : Topic) (cb : Nat) (buf : List Nat),
      s.currentState = SerRpcState.RECEIVING_CRC →
      s.receivedFirstCrcByte = true →
      (s.receivedCrc ||| b) % 65536 = env.crcCalc s.receiveFed % 65536 →
      infoIsAck s.receivedFrameInfo = false →
      infoAckReq s.receivedFrameInfo = true →
      s.topics[s.currentTopicIdx]? = some tp →
      tp.callback = some cb →
      s.receivedData = some buf →
      (stateHandle env s b).sentBytes
          = s.sentBytes
            ++ ackWire env (env.callbacks cb s.currentTopicId buf s.receivedDataLength NO_ERROR)
      ∧ (stateHandle env s b).callbackLog
          = s.callbackLog ++ [(s.currentTopicId, buf, s.receivedDataLength, NO_ERROR)]
      ∧ (stateHandle env s b).currentState = SerRpcState.IDLE)
    ∧ (∀ (env : Env) (s : State) (t : Nat) (data : List Nat) (tm status e1 e2 : Nat),
      status < 256 → e1 < tm →
      (publish env s t data true tm [(ackWire env status, e1), ([], e2)]).map Prod.fst
        = some status) := by
  constructor
  · intro env s b tp cb buf hs hf hm hAck hReq htp hcb hbuf
    rw [step_crc_valid_data_ack env s b tp cb buf hs hf hm hAck hReq htp hcb hbuf]
    simp
  · intro env s t data tm status e1 e2 hst he
    have hack := ackDecode env (ackReset (publishSend env s t data true)) status [] rfl hst
    have hval : (loopBytes env (ackReset (publishSend env s t data true))
        (ackWire env status)).receivedValidAck = true := by
      rw [loopBytes, ← List.append_nil (ackWire env status), hack]
      rfl
    have hstat : (loopBytes env (ackReset (publishSend env s t data true))
        (ackWire env status)).receivedAckStatus = status := by
      rw [loopBytes, ← List.append_nil (ackWire env status), hack]
      rfl
    have hred : publish env s t data true tm [(ackWire env status, e1), ([], e2)]
        = waitLoop env tm (ackReset (publishSend env s t data true))
            [(ackWire env status, e1), ([], e2)] := rfl
    have hva : (ackReset (publishSend env s t data true)).receivedValidAck = false := rfl
    have hne1 : ¬ tm ≤ e1 := by omega
    rw [hred, waitLoop]
    rw [if_neg (by rw [hva]; exact Bool.false_ne_true)]
    simp only [hne1, if_false]
    rw [waitLoop, if_pos hval, hstat]
    rfl

/-- Witness for C5: part 1 at the concrete decoder state `crcState` with the
matching CRC byte 138, part 2 with the peer echoing status 5
(`PROCESSING_ERROR`). -/
theorem spec_C5_ack_status_witness :
    ((stateHandle env0 crcState 138).sentBytes = ackWire env0 9
      ∧ (stateHandle env0 crcState 138).callbackLog = [(5, [1, 2], 2, NO_ERROR)])
    ∧ (publish env0 (initState []) 4 [1] true 100
        [(ackWire env0 5, 10), ([], 20)]).map Prod.fst = some 5 :=
  ⟨⟨((spec_C5_ack_status.1 env0 crcState 138
        { topicId := 5, callback := some 9, used := true } 9 [1, 2]
        rfl rfl (by decide) (by decide) (by decide) (by decide) rfl rfl).1),
    ((spec_C5_ack_status.1 env0 crcState 138
        { topicId := 5, callback := some 9, used := true } 9 [1, 2]
        rfl rfl (by decide) (by decide) (by decide) (by decide) rfl rfl).2.1)⟩,
    spec_C5_ack_status.2 env0 (initState []) 4 [1] 100 5 10 20 (by decide) (by decide)⟩

/-! ## C7: reception during the acknowledgment wait -/

/-- C7: (1) whatever the acknowledgment wait returns, the final engine state
is exactly the fold of the plain `loop()` pump over the consumed prefix of
the schedule, starting from the reset state — frames arriving during the
wait are processed exactly as a plain `loop()` call would process them;
(2) concretely, a complete valid inbound data frame for a subscribed topic
arriving (before the acknowledgment) during a blocked `publish` is fully
decoded and its subscriber callback dispatched, while the publish still
returns the acknowledged status. -/
theorem spec_C7_wait_processes_frames :
    (∀ (env : Env) (s : State) (tm : Nat) (iters : List (List Nat × Nat))
        (r : Nat) (s2 : State),
      waitForAcknowledge env s tm iters = some (r, s2) →
      ∃ k, k ≤ iters.length ∧
        s2 = List.foldl (fun st p => loopBytes env st p.1) (ackReset s) (iters.take k))
    ∧ (∀ (env : Env) (s : State) (tPub t : Nat) (tp : Topic) (cb : Nat)
        (dataPub data : List Nat) (tm status e1 e2 : Nat),
      t ≤ 62 → 1 ≤ data.length → data.length ≤ 255 →
      getTopicIdx s.topics t ≠ 255 →
      s.topics[getTopicIdx s.topics t]? = some tp →
      tp.callback = some cb →
      status < 256 → e1 < tm →
      ∃ s2, publish env s tPub dataPub true tm
          [(dataFrameWire env t data false ++ ackWire env status, e1), ([], e2)]
          = some (status, s2)
        ∧ s2.callbackLog = s.callbackLog ++ [(t, data, data.length, NO_ERROR)]) := by
  constructor
  · intro env s tm iters r s2 h
    exact waitLoop_prefix env tm iters (ackReset s) r s2 h
  · intro env s tPub t tp cb dataPub data tm status e1 e2 ht h1 h255 hi htp hcb hst he
    have hWtopics : (ackReset (publishSend env s tPub dataPub true)).topics = s.topics := by
      simp [ackReset, publishSend_eq]
    have hi2 : getTopicIdx (ackReset (publishSend env s tPub dataPub true)).topics t ≠ 255 := by
      rw [hWtopics]; exact hi
    have htp2 : (ackReset (publishSend env s tPub dataPub true)).topics[getTopicIdx
        (ackReset (publishSend env s tPub dataPub true)).topics t]? = some tp := by
      rw [hWtopics]; exact htp
    have hfd := frameDecode env (ackReset (publishSend env s tPub dataPub true)) t data tp cb
      (ackWire env status ++ []) rfl ht h1 h255 hi2 htp2 hcb
    rw [ackDecode env _ status [] rfl hst] at hfd
    have hsplit : dataFrameWire env t data false ++ ackWire env status
        = dataFrameWire env t data false ++ (ackWire env status ++ []) := by simp
    have hval : (loopBytes env (ackReset (publishSend env s tPub dataPub true))
        (dataFrameWire env t data false ++ ackWire env status)).receivedValidAck = true := by
      rw [loopBytes, hsplit, hfd]
      rfl
    have hstat : (loopBytes env (ackReset (publishSend env s tPub dataPub true))
        (dataFrameWire env t data false ++ ackWire env status)).receivedAckStatus = status := by
      rw [loopBytes, hsplit, hfd]
      rfl
    have hlog : (loopBytes env (ackReset (publishSend env s tPub dataPub true))
        (dataFrameWire env t data false ++ ackWire env status)).callbackLog
        = s.callbackLog ++ [(t, data, data.length, NO_ERROR)] := by
      rw [loopBytes, hsplit, hfd]
      show (ackReset (publishSend env s tPub dataPub true)).callbackLog
          ++ [(t, data, data.length, NO_ERROR)] = _
      simp [ackReset, publishSend_eq]
    refine ⟨loopBytes env (ackReset (publishSend env s tPub dataPub true))
      (dataFrameWire env t data false ++ ackWire env status), ?_, hlog⟩
    have hred : publish env s tPub dataPub true tm
        [(dataFrameWire env t data false ++ ackWire env status, e1), ([], e2)]
        = waitLoop env tm (ackReset (publishSend env s tPub dataPub true))
            [(dataFrameWire env t data false ++ ackWire env status, e1), ([], e2)] := rfl
    have hva : (ackReset (publishSend env s tPub dataPub true)).receivedValidAck = false := rfl
    have hne1 : ¬ tm ≤ e1 := by omega
    rw [hred, waitLoop]
    rw [if_neg (by rw [hva]; exact Bool.false_ne_true)]
    simp only [hne1, if_false]
    rw [waitLoop, if_pos hval, hstat]

/-- Witness for C7: part 1 on a timing-out wait, part 2 with a data frame
for topic 5 (payload `[1, 2]`) delivered together with the acknowledgment
during a blocked publish to topic 3. -/
theorem spec_C7_wait_processes_frames_witness :
    (waitForAcknowledge env0 (initState []) 200 [([], 300)]
        = some (ACK_TIMEOUT_ERROR, ackReset (initState []))
      ∧ ∃ k, k ≤ ([([], 300)] : List (List Nat × Nat)).length ∧
          ackReset (initState [])
            = List.foldl (fun st p => loopBytes env0 st p.1) (ackReset (initState []))
                (([([], 300)] : List (List Nat × Nat)).take k))
    ∧ (∃ s2, publish env0 sub5 3 [7] true 100
          [(dataFrameWire env0 5 [1, 2] false ++ ackWire env0 5, 10), ([], 20)]
          = some (5, s2)
        ∧ s2.callbackLog = sub5.callbackLog ++ [(5, [1, 2], 2, NO_ERROR)]) :=
  ⟨⟨by decide,
    spec_C7_wait_processes_frames.1 env0 (initState []) 200 [([], 300)] ACK_TIMEOUT_ERROR
      (ackReset (initState [])) (by decide)⟩,
    spec_C7_wait_processes_frames.2 env0 sub5 3 5
      { topicId := 5, callback := some 9, used := true } 9 [7] [1, 2] 100 5 10 20
      (by decide) (by decide) (by decide) (by decide) (by decide) (by decide)
      (by decide) (by decide)⟩

/-! ## C9: the acknowledgment wait resets the decoder -/

/-- C9: `waitForAcknowledge` (hence every `publish` with `ackRequested =
true`) unconditionally resets the decoder to `IDLE` and clears the valid-ack
flag and stored ack status before pumping: (1) its outcome is entirely
independent of the decoder state, valid-ack flag and stored status at entry
— a partially decoded inbound frame is silently abandoned; (2) the abandoned
frame's remaining marker-free bytes are then consumed from `IDLE` without
effect: with the timeout already expired they produce `ACK_TIMEOUT_ERROR`
and exactly the reset state, no callback ever firing. -/
theorem spec_C9_wait_resets_decoder :
    (∀ (env : Env) (s : State) (c : SerRpcState) (v : Bool) (a tm : Nat)
        (iters : List (List Nat × Nat)),
      waitForAcknowledge env
          { s with currentState := c, receivedValidAck := v, receivedAckStatus := a } tm iters
        = waitForAcknowledge env s tm iters)
    ∧ (∀ (env : Env) (s : State) (tm e : Nat) (rest : List Nat),
      s.currentState = SerRpcState.RECEIVING_DATA →
      (∀ b ∈ rest, b ≠ FRAME_START ∧ b ≠ ESCAPE_CHARACTER) →
      tm ≤ e →
      waitForAcknowledge env s tm [(rest, e)] = some (ACK_TIMEOUT_ERROR, ackReset s)) := by
  constructor
  · intro env s c v a tm iters
    rw [waitForAcknowledge, waitForAcknowledge]
    obtain ⟨tps, cti, ctid, rd, rdc, rdl, rfi, rcrc, rfc, cst, rxs, rva, ras, rfed, sfed,
      sout, clog⟩ := s
    rfl
  · intro env s tm e rest hs hb htm
    have hpump : loopBytes env (ackReset s) rest = ackReset s := by
      rw [loopBytes, unescape_no_marker rest (fun b hbm => (hb b hbm).2)]
      exact idle_ignores env rest (ackReset s) rfl (fun b hbm => (hb b hbm).1)
    rw [waitForAcknowledge, waitLoop]
    rw [if_neg (show ¬ (ackReset s).receivedValidAck = true from by
      rw [show (ackReset s).receivedValidAck = false from rfl]
      exact Bool.false_ne_true)]
    simp only [hpump, htm, if_true]

/-- Witness for C9: a decoder abandoned mid-frame (data state), remaining
frame bytes `[1, 2, 3]`, timeout already expired. -/
theorem spec_C9_wait_resets_decoder_witness :
    (waitForAcknowledge env0
        { initState [] with
            currentState := SerRpcState.RECEIVING_DATA,
            receivedValidAck := true,
            receivedAckStatus := 3 } 100 [([1, 2, 3], 200)]
      = waitForAcknowledge env0 (initState []) 100 [([1, 2, 3], 200)])
    ∧ (waitForAcknowledge env0
        { initState [] with currentState := SerRpcState.RECEIVING_DATA } 100 [([1, 2, 3], 200)]
      = some (ACK_TIMEOUT_ERROR,
          ackReset { initState [] with currentState := SerRpcState.RECEIVING_DATA })) :=
  ⟨spec_C9_wait_resets_decoder.1 env0 (initState []) SerRpcState.RECEIVING_DATA true 3 100
      [([1, 2, 3], 200)],
    spec_C9_wait_resets_decoder.2 env0
      { initState [] with currentState := SerRpcState.RECEIVING_DATA } 100 200 [1, 2, 3]
      rfl (by decide) (by decide)⟩

/-! ## C10: timeout check precedence over a just-decoded acknowledgment -/

/-- C10: in the acknowledgment wait, the timeout check performed right after
a pump iteration takes precedence: if the elapsed time at that check has
reached the timeout, `waitForAcknowledge` returns `ACK_TIMEOUT_ERROR` even
when that very iteration decoded a valid acknowledgment (valid-ack flag
set); the flag is only honoured at the next iteration's entry check. -/
theorem spec_C10_timeout_precedence (env : Env) (s : State) (tm : Nat)
    (bytes : List Nat) (e : Nat) (rest : List (List Nat × Nat))
    (htm : tm ≤ e)
    (_hack : (loopBytes env (ackReset s) bytes).receivedValidAck = true) :
    waitForAcknowledge env s tm ((bytes, e) :: rest)
      = some (ACK_TIMEOUT_ERROR, loopBytes env (ackReset s) bytes) := by
  rw [waitForAcknowledge, waitLoop]
  rw [if_neg (show ¬ (ackReset s).receivedValidAck = true from by
    rw [show (ackReset s).receivedValidAck = false from rfl]
    exact Bool.false_ne_true)]
  simp only [htm, if_true]

/-- Witness for C10: a complete valid acknowledgment frame decoded in the
very iteration whose elapsed time equals the timeout. -/
theorem spec_C10_timeout_precedence_witness :
    (loopBytes env0 (ackReset (initState [])) (ackWire env0 5)).receivedValidAck = true
    ∧ waitForAcknowledge env0 (initState []) 200 [(ackWire env0 5, 200)]
        = some (ACK_TIMEOUT_ERROR, loopBytes env0 (ackReset (initState [])) (ackWire env0 5)) :=
  ⟨by decide,
    spec_C10_timeout_precedence env0 (initState []) 200 (ackWire env0 5) 200 []
      (by decide) (by decide)⟩

end ERPC
